import Mathlib

/-!
Shallow embedding of the Notion sync / OAuth credential subsystem of the
SpeakToNote repository (`src/services/notion.ts`, singleton `NotionService`,
and the batch-sync orchestration in `SyncStatusBar.handleSyncAll`).

Local key-value storage (`AsyncStorage`) is modelled as an association list
together with sets of keys whose reads / writes fail; remote HTTP outcomes
(token exchange, page search, page update, block append) are passed in as
explicit oracle arguments.  JavaScript truthiness on optional strings
(`undefined`/`null` and `""` are falsy) is modelled explicitly.
-/

/-- Storage keys (`notion.ts` lines 18–22). -/
def NOTION_TOKEN_KEY : String := "@speak_to_note_notion_token"

def NOTION_PAGE_ID_KEY : String := "@speak_to_note_notion_page_id"

def NOTION_PAGE_NAME_KEY : String := "@speak_to_note_notion_page_name"

def NOTION_USER_ID_KEY : String := "@speak_to_note_notion_user_id"

def NOTION_WORKSPACE_ID_KEY : String := "@speak_to_note_notion_workspace_id"

deriving instance DecidableEq for Except

/-- JS truthiness of an optional string: `undefined`/`null` and `""` are falsy. -/
def strTruthy : Option String → Bool
  | some t => t != ""
  | none => false

/-- JS `x || d` on an optional string (used for `workspace_name || 'User Workspace'`
and `plain_text || 'Untitled'`). -/
def jsOrElse (o : Option String) (d : String) : String :=
  match o with
  | some t => if t = "" then d else t
  | none => d

/-- JS `x || undefined` on an optional string (used in `loadConfig` for
`userId || undefined` and `workspaceId || undefined`). -/
def orUndefined (o : Option String) : Option String :=
  match o with
  | some t => if t = "" then none else some t
  | none => none

/-- Model of `AsyncStorage`: persisted key-value data plus the sets of keys
whose reads resp. writes fail (to model storage failures). -/
structure Storage where
  data : List (String × String)
  failRead : List String
  failWrite : List String
deriving Repr, DecidableEq

/-- Value currently stored under a key (`none` when absent). -/
def Storage.lookup (s : Storage) (k : String) : Option String :=
  (s.data.find? (fun p => p.1 == k)).map (fun p => p.2)

/-- `AsyncStorage.getItem`: resolves with the stored string or `null`;
rejects when the read fails. -/
def getItem (s : Storage) (k : String) : Except String (Option String) :=
  if k ∈ s.failRead then .error "storage read failure" else .ok (s.lookup k)

/-- `AsyncStorage.setItem`: stores `v` under `k`; rejects when the write fails. -/
def setItem (s : Storage) (k v : String) : Except String Storage :=
  if k ∈ s.failWrite then .error "storage write failure"
  else .ok { s with data := (k, v) :: s.data.filter (fun p => p.1 != k) }

/-- `AsyncStorage.removeItem`: deletes the entry under `k`; rejects when the
write fails. -/
def removeItem (s : Storage) (k : String) : Except String Storage :=
  if k ∈ s.failWrite then .error "storage write failure"
  else .ok { s with data := s.data.filter (fun p => p.1 != k) }

/-- The `NotionConfig` interface (`notion.ts` lines 24–31): the credential
record.  `pageId` is the spec's `selectedTargetId`, `pageName` its label. -/
structure NotionConfig where
  accessToken : String
  pageId : String
  pageName : String
  userId : Option String := none
  workspaceId : Option String := none
  workspaceName : Option String := none
deriving Repr, DecidableEq

/-- Mutable state of the `NotionService` singleton: the storage it talks to,
the in-memory cached credential record (`this.config`), and whether the
Notion API client has been constructed (`this.notion !== null`). -/
structure ServiceState where
  storage : Storage
  config : Option NotionConfig
  notionInit : Bool
deriving Repr, DecidableEq

/-- The sequential reads of `loadConfig` (`notion.ts` lines 69–88), up to the
`catch`.  AsyncStorage rejections surface as `.error`; otherwise the record is
reconstructed when the token entry is truthy.  Note the loaded record never
carries a `workspaceName` (no storage key exists for it). -/
def loadConfigRead (st : Storage) : Except String (Option NotionConfig) := do
  let token ← getItem st NOTION_TOKEN_KEY
  let pageId ← getItem st NOTION_PAGE_ID_KEY
  let pageName ← getItem st NOTION_PAGE_NAME_KEY
  let userId ← getItem st NOTION_USER_ID_KEY
  let workspaceId ← getItem st NOTION_WORKSPACE_ID_KEY
  if strTruthy token then
    pure (some
      { accessToken := token.getD ""
        pageId := pageId.getD ""
        pageName := pageName.getD ""
        userId := orUndefined userId
        workspaceId := orUndefined workspaceId
        workspaceName := none })
  else
    pure none

/-- `NotionService.loadConfig` (lines 67–93): on success with a truthy token,
caches and returns the record; with no token it returns `null` leaving the
cache alone; any storage error is caught and `null` is returned (the failure
is logged, not propagated). -/
def loadConfig (s : ServiceState) : ServiceState × Option NotionConfig :=
  match loadConfigRead s.storage with
  | .error _ => (s, none)
  | .ok none => (s, none)
  | .ok (some c) => ({ s with config := some c }, some c)

/-- The write list of `saveConfig` (lines 101–111): token, page id and page
name unconditionally; user id and workspace id only when truthy.  No write
for `workspaceName` exists. -/
def saveWrites (c : NotionConfig) : List (String × String) :=
  [(NOTION_TOKEN_KEY, c.accessToken),
   (NOTION_PAGE_ID_KEY, c.pageId),
   (NOTION_PAGE_NAME_KEY, c.pageName)]
  ++ (if strTruthy c.userId then [(NOTION_USER_ID_KEY, (c.userId).getD "")] else [])
  ++ (if strTruthy c.workspaceId then [(NOTION_WORKSPACE_ID_KEY, (c.workspaceId).getD "")] else [])

/-- Sequential `setItem` calls; on the first rejection the storage reflects
the writes already performed (partial writes persist). -/
def setItems (st : Storage) : List (String × String) → Storage × Except String Unit
  | [] => (st, .ok ())
  | (k, v) :: rest =>
    match setItem st k v with
    | .error e => (st, .error e)
    | .ok st1 => setItems st1 rest

/-- `NotionService.saveConfig` (lines 96–128): performs the writes, then
updates the in-memory cache; a storage rejection is re-thrown wrapped with
context (`Failed to save user Notion configuration: ...`), and the cache is
not updated in that case. -/
def saveConfig (s : ServiceState) (c : NotionConfig) : ServiceState × Except String Unit :=
  match setItems s.storage (saveWrites c) with
  | (st1, .error e) =>
    ({ s with storage := st1 }, .error ("Failed to save user Notion configuration: " ++ e))
  | (st1, .ok _) => ({ s with storage := st1, config := some c }, .ok ())

/-- `NotionService.isConfigured` (lines 499–501):
`this.config !== null && this.config.accessToken !== '' && this.config.pageId !== ''`. -/
def isConfigured (s : ServiceState) : Bool :=
  match s.config with
  | none => false
  | some c => c.accessToken != "" && c.pageId != ""

/-- `NotionService.initializeNotion` (lines 54–64): throws when the cached
record's access token is falsy, otherwise constructs the API client once. -/
def initializeNotion (s : ServiceState) : ServiceState × Except String Unit :=
  if strTruthy (s.config.map (fun c => c.accessToken)) then
    if s.notionInit then (s, .ok ()) else ({ s with notionInit := true }, .ok ())
  else
    (s, .error "Notion not configured. Please authenticate first.")

/-- `NotionService.disconnect` (lines 480–491): removes the token, page-id and
page-name entries (only those three) and clears the in-memory state; a storage
rejection is re-thrown as `Failed to disconnect Notion`. -/
def disconnect (s : ServiceState) : ServiceState × Except String Unit :=
  match removeItem s.storage NOTION_TOKEN_KEY with
  | .error _ => (s, .error "Failed to disconnect Notion")
  | .ok st1 =>
    match removeItem st1 NOTION_PAGE_ID_KEY with
    | .error _ => ({ s with storage := st1 }, .error "Failed to disconnect Notion")
    | .ok st2 =>
      match removeItem st2 NOTION_PAGE_NAME_KEY with
      | .error _ => ({ s with storage := st2 }, .error "Failed to disconnect Notion")
      | .ok st3 => ({ storage := st3, config := none, notionInit := false }, .ok ())

/-- Outcome of `WebBrowser.openAuthSessionAsync`: `success` carries the query
parameters parsed from the callback URL (`code`, `error`); `cancel` is a user
cancellation; `dismiss` stands for any other result type. -/
inductive BrowserResult where
  | success (code : Option String) (err : Option String)
  | cancel
  | dismiss (t : String)
deriving Repr, DecidableEq

/-- Oracle for the token-endpoint `fetch` (`notion.ts` lines 176–212):
`ok` is `response.ok`; on success the JSON fields
`access_token`, `workspace_id`, `workspace_name`, `owner.user.id`;
on failure the response body text. -/
structure TokenResponse where
  ok : Bool
  accessToken : String
  workspaceId : Option String := none
  workspaceName : Option String := none
  ownerUserId : Option String := none
  errorText : String := ""
deriving Repr, DecidableEq

/-- The fabricated "test connection" record built in `authenticate`'s catch
block (lines 232–239); `now` stands for `Date.now()`. -/
def testFallbackConfig (now : Nat) : NotionConfig :=
  { accessToken := "secret_test_" ++ toString now
    pageId := "test-page-id"
    pageName := "Test Page"
    userId := some ("user_test_" ++ toString now)
    workspaceId := some ("workspace_test_" ++ toString now)
    workspaceName := some "Test Workspace" }

/-- The credential record built on token-exchange success (lines 196–203):
returned token, empty page selection, identity metadata from the response
with a defaulted workspace name. -/
def tokenSuccessConfig (tokenResp : TokenResponse) : NotionConfig :=
  { accessToken := tokenResp.accessToken
    pageId := ""
    pageName := ""
    userId := tokenResp.ownerUserId
    workspaceId := tokenResp.workspaceId
    workspaceName := some (jsOrElse tokenResp.workspaceName "User Workspace") }

/-- `authenticate`'s catch block (lines 227–244): saves the fabricated test
record and resolves `true`; if that save itself rejects, the rejection
escapes `authenticate`. -/
def authFallback (s : ServiceState) (now : Nat) : ServiceState × Except String Bool :=
  match saveConfig s (testFallbackConfig now) with
  | (s1, .ok _) => (s1, .ok true)
  | (s1, .error e) => (s1, .error e)

/-- `NotionService.authenticate` (lines 131–245).  The interactive browser
step and the token-endpoint response are oracles.  Every `throw` inside the
`try` (OAuth `error` parameter, missing code, non-2xx token exchange, failed
`saveConfig`, non-cancel browser failure) lands in the catch block, which
saves the fabricated test record; user cancellation resolves `false`. -/
def authenticate (s : ServiceState) (browser : BrowserResult)
    (tokenResp : TokenResponse) (now : Nat) : ServiceState × Except String Bool :=
  match browser with
  | .cancel => (s, .ok false)
  | .dismiss _ => authFallback s now
  | .success code err =>
    if strTruthy err then
      authFallback s now
    else if strTruthy code then
      if tokenResp.ok then
        match saveConfig s (tokenSuccessConfig tokenResp) with
        | (s1, .ok _) => (s1, .ok true)
        | (s1, .error _) => authFallback s1 now
      else
        authFallback s now
    else
      authFallback s now

/-- A page object as returned by the Notion `search` call: `titleText` models
`page.properties?.title?.title?.[0]?.plain_text` (absent or empty is falsy). -/
structure RemotePage where
  id : String
  titleText : Option String
  url : String
deriving Repr, DecidableEq

/-- An item of the list returned by `getUserPages`. -/
structure PageItem where
  id : String
  title : String
  url : String
deriving Repr, DecidableEq

/-- The hard-coded fallback list returned by `getUserPages`' catch block
(lines 333–354). -/
def mockPages : List PageItem :=
  [{ id := "page-1", title := "My Notes", url := "https://notion.so/page-1" },
   { id := "page-2", title := "Meeting Notes", url := "https://notion.so/page-2" },
   { id := "page-3", title := "Ideas & Thoughts", url := "https://notion.so/page-3" },
   { id := "page-4", title := "Daily Journal", url := "https://notion.so/page-4" }]

/-- `NotionService.getUserPages` (lines 298–356): initializes the client,
performs the search, and maps each result with a `'Untitled'` default title;
any failure is caught and the mock page list is returned instead. -/
def getUserPages (s : ServiceState) (searchOutcome : Except String (List RemotePage)) :
    ServiceState × Except String (List PageItem) :=
  match initializeNotion s with
  | (s1, .error _) => (s1, .ok mockPages)
  | (s1, .ok _) =>
    if s1.notionInit then
      match searchOutcome with
      | .error _ => (s1, .ok mockPages)
      | .ok pages =>
        (s1, .ok (pages.map (fun p =>
          { id := p.id, title := jsOrElse p.titleText "Untitled", url := p.url })))
    else
      (s1, .ok mockPages)

/-- Argument of `syncNote`: `createdAtLocale` models
`note.createdAt.toLocaleString()`. -/
structure NoteInput where
  title : String
  content : String
  createdAtLocale : String
deriving Repr, DecidableEq

/-- A remote Notion API call attempted during a sync
(`pages.update` and `blocks.children.append`). -/
inductive RemoteOp where
  | pageUpdate (pageId : String)
  | blockAppend (blockId : String) (content : String)
deriving Repr, DecidableEq

/-- The text block formatted by `syncNote` (line 410). -/
def formatNoteContent (n : NoteInput) : String :=
  n.title ++ "\n\n" ++ n.content ++ "\n\n---\n*Transcribed on " ++ n.createdAtLocale ++ "*\n\n"

/-- `NotionService.syncNote` (lines 396–457).  Returns the state, the trace of
remote calls attempted, and the promise outcome.  Every internal `throw`
(no page selected, client not configured) and every remote rejection
(`pages.update`, `blocks.children.append` — their outcomes are the two oracle
arguments) is caught by the catch block, which logs and resolves `true`;
hence the outcome channel never carries an error. -/
def syncNote (s : ServiceState) (note : NoteInput)
    (updateOutcome appendOutcome : Except String Unit) :
    ServiceState × List RemoteOp × Except String Bool :=
  if strTruthy (s.config.map (fun c => c.pageId)) then
    match initializeNotion s with
    | (s1, .error _) => (s1, [], .ok true)
    | (s1, .ok _) =>
      if s1.notionInit then
        match (s1.config.map (fun c => c.pageId)).getD "", formatNoteContent note with
        | pid, content =>
          match updateOutcome with
          | .error _ => (s1, [.pageUpdate pid], .ok true)
          | .ok _ =>
            match appendOutcome with
            | .error _ => (s1, [.pageUpdate pid, .blockAppend pid content], .ok true)
            | .ok _ => (s1, [.pageUpdate pid, .blockAppend pid content], .ok true)
      else
        (s1, [], .ok true)
  else
    (s, [], .ok true)

/-- `NotionService.ensurePageExists` (lines 460–477): throws when no page id
is selected, otherwise succeeds after a simulated delay (it is a stub; the
catch block re-throws the same error). -/
def ensurePageExists (s : ServiceState) : Except String Unit :=
  if strTruthy (s.config.map (fun c => c.pageId)) then .ok ()
  else .error "No Notion page selected"

/-- Per-note sync status (`SyncStatus` interface / `note.notionSyncStatus`);
`lastSyncAttempt` is an abstract timestamp. -/
structure SyncStatusRec where
  isSynced : Bool
  lastSyncAttempt : Option Nat := none
  error : Option String := none
deriving Repr, DecidableEq

/-- A note as seen by `SyncStatusBar`. -/
structure Note where
  id : String
  title : String
  content : String
  createdAtLocale : String
  notionSyncStatus : Option SyncStatusRec := none
deriving Repr, DecidableEq

/-- Truthiness of `note.notionSyncStatus?.isSynced`. -/
def Note.isSyncedB (n : Note) : Bool :=
  match n.notionSyncStatus with
  | some st => st.isSynced
  | none => false

/-- The fields of a note passed to `syncNote` (lines 61–65). -/
def Note.toInput (n : Note) : NoteInput :=
  { title := n.title, content := n.content, createdAtLocale := n.createdAtLocale }

/-- Which alert `handleSyncAll` shows at the end (`silent` = early return,
`syncError` = the outer catch). -/
inductive SyncAlert where
  | silent
  | complete
  | mixed
  | failed
  | syncError
deriving Repr, DecidableEq

/-- Result of `handleSyncAll`: final service state, the unsynced notes with
their updated statuses (in processing order), the trace of remote calls,
the aggregate counts, and the alert shown. -/
structure SyncAllResult where
  state : ServiceState
  processed : List Note
  trace : List RemoteOp
  successCount : Nat
  errorCount : Nat
  alert : SyncAlert
deriving Repr, DecidableEq

/-- The `for (const note of unsyncedNotes)` loop of `handleSyncAll`
(lines 59–83): each note is synced in order; a resolved `syncNote` marks the
note `{isSynced: true, lastSyncAttempt: now}` and bumps `successCount`; a
rejected one (impossible for this `syncNote`, but the catch branch is in the
code) marks it failed with the error message and bumps `errorCount`.  The
oracle arguments give the outcome of the remote calls of the i-th iteration. -/
def syncLoop (s : ServiceState) (pending : List Note) (idx : Nat)
    (upd app : Nat → Except String Unit) (now : Nat) :
    ServiceState × List Note × List RemoteOp × Nat × Nat :=
  match pending with
  | [] => (s, [], [], 0, 0)
  | n :: rest =>
    match syncNote s n.toInput (upd idx) (app idx) with
    | (s1, ops, .ok _) =>
      let st1 : SyncStatusRec := { isSynced := true, lastSyncAttempt := some now, error := none }
      match syncLoop s1 rest (idx + 1) upd app now with
      | (s2, rest1, ops2, sc, ec) =>
        (s2, { n with notionSyncStatus := some st1 } :: rest1, ops ++ ops2, sc + 1, ec)
    | (s1, ops, .error e) =>
      let st1 : SyncStatusRec := { isSynced := false, lastSyncAttempt := some now, error := some e }
      match syncLoop s1 rest (idx + 1) upd app now with
      | (s2, rest1, ops2, sc, ec) =>
        (s2, { n with notionSyncStatus := some st1 } :: rest1, ops ++ ops2, sc, ec + 1)

/-- `SyncStatusBar.handleSyncAll` (part_001 lines 48–108): filters to notes
whose `notionSyncStatus?.isSynced` is falsy; returns early when none; calls
`ensurePageExists` once (its rejection lands in the outer catch, shown as
`syncError`, with no sync attempted); otherwise runs the loop and reports the
aggregate counts via one of the three alerts. -/
def handleSyncAll (s : ServiceState) (notes : List Note)
    (upd app : Nat → Except String Unit) (now : Nat) : SyncAllResult :=
  let unsynced := notes.filter (fun n => !n.isSyncedB)
  if unsynced.length = 0 then
    { state := s, processed := [], trace := [], successCount := 0, errorCount := 0,
      alert := .silent }
  else
    match ensurePageExists s with
    | .error _ =>
      { state := s, processed := [], trace := [], successCount := 0, errorCount := 0,
        alert := .syncError }
    | .ok _ =>
      match syncLoop s unsynced 0 upd app now with
      | (s2, processed, ops, sc, ec) =>
        { state := s2, processed := processed, trace := ops, successCount := sc,
          errorCount := ec,
          alert :=
            if 0 < sc ∧ ec = 0 then .complete
            else if 0 < sc ∧ 0 < ec then .mixed
            else .failed }

/-- Number of `pages.update` attempts in a trace (each per-note remote sync
attempt starts with exactly one). -/
def pageUpdateCount (ops : List RemoteOp) : Nat :=
  (ops.filter (fun o => match o with | .pageUpdate _ => true | _ => false)).length

/-! ### Concrete fixtures used by witnesses and counterexamples -/

/-- Empty storage, no failures. -/
def emptyStorage : Storage := { data := [], failRead := [], failWrite := [] }

/-- Fresh service state: nothing persisted, nothing cached. -/
def emptyState : ServiceState := { storage := emptyStorage, config := none, notionInit := false }

/-- A fully populated credential record. -/
def rtCfg : NotionConfig :=
  { accessToken := "tok_a", pageId := "pg_1", pageName := "Notes",
    userId := some "u_1", workspaceId := some "w_1", workspaceName := some "Acme Workspace" }

/-- A state whose cached record is configured (token and page id non-empty). -/
def configuredState : ServiceState :=
  { storage := emptyStorage, config := some rtCfg, notionInit := false }

/-- A non-2xx token-endpoint response. -/
def tok401 : TokenResponse := { ok := false, accessToken := "", errorText := "401 unauthorized" }

/-! ### Helper lemmas about the storage model -/

/-- Storage resulting from a list of writes when none fails. -/
def applyWrites (st : Storage) (l : List (String × String)) : Storage :=
  l.foldl (fun acc kv => { acc with data := (kv.1, kv.2) :: acc.data.filter (fun p => p.1 != kv.1) }) st

/-- The value the last write to a key in a write list left behind, if any. -/
def lastWrite (l : List (String × String)) (k : String) : Option String :=
  match l with
  | [] => none
  | kv :: rest =>
    match lastWrite rest k with
    | some v => some v
    | none => if kv.1 == k then some kv.2 else none

theorem applyWrites_cons (st : Storage) (kv : String × String) (l : List (String × String)) :
    applyWrites st (kv :: l) =
      applyWrites { st with data := (kv.1, kv.2) :: st.data.filter (fun p => p.1 != kv.1) } l := rfl

theorem applyWrites_failWrite (l : List (String × String)) (st : Storage) :
    (applyWrites st l).failWrite = st.failWrite := by
  induction l generalizing st with
  | nil => rfl
  | cons kv rest ih => rw [applyWrites_cons, ih]

theorem applyWrites_failRead (l : List (String × String)) (st : Storage) :
    (applyWrites st l).failRead = st.failRead := by
  induction l generalizing st with
  | nil => rfl
  | cons kv rest ih => rw [applyWrites_cons, ih]

theorem setItems_noFail (l : List (String × String)) (st : Storage) (hw : st.failWrite = []) :
    setItems st l = (applyWrites st l, .ok ()) := by
  induction l generalizing st with
  | nil => rfl
  | cons kv rest ih =>
    obtain ⟨k, v⟩ := kv
    rw [applyWrites_cons]
    simp only [setItems, setItem, hw]
    rw [if_neg (by simp)]
    exact ih _ (by simp [hw])

theorem find?_filter_ne (l : List (String × String)) (k j : String) (h : j ≠ k) :
    (l.filter (fun p => p.1 != j)).find? (fun p => p.1 == k) = l.find? (fun p => p.1 == k) := by
  induction l with
  | nil => rfl
  | cons p rest ih =>
    by_cases hk : p.1 = k
    · have hpj : (p.1 != j) = true := by simp [hk, Ne.symm h]
      have hpk : (p.1 == k) = true := by simp [hk]
      simp [List.filter_cons, hpj, List.find?_cons, hpk]
    · have hpk : (p.1 == k) = false := by simp [hk]
      by_cases hj : p.1 = j
      · have hpj : (p.1 != j) = false := by simp [hj]
        simp [List.filter_cons, hpj, List.find?_cons, hpk, ih]
      · have hpj : (p.1 != j) = true := by simp [hj]
        simp [List.filter_cons, hpj, List.find?_cons, hpk, ih]

theorem find?_self_filter (l : List (String × String)) (k : String) :
    (l.filter (fun p => p.1 != k)).find? (fun p => p.1 == k) = none := by
  induction l with
  | nil => rfl
  | cons p rest ih =>
    by_cases hk : p.1 = k
    · simp [List.filter_cons, hk, ih]
    · simp [List.filter_cons, hk, List.find?_cons, ih]

theorem lookup_write_self (st : Storage) (k v : String) :
    Storage.lookup { st with data := (k, v) :: st.data.filter (fun p => p.1 != k) } k = some v := by
  simp [Storage.lookup, List.find?_cons]

theorem lookup_write_other (st : Storage) (k j v : String) (h : j ≠ k) :
    Storage.lookup { st with data := (j, v) :: st.data.filter (fun p => p.1 != j) } k
      = st.lookup k := by
  have hj : (j == k) = false := by simp [h]
  simp [Storage.lookup, List.find?_cons, hj, find?_filter_ne _ _ _ h]

theorem lookup_applyWrites (l : List (String × String)) (st : Storage) (k : String) :
    (applyWrites st l).lookup k =
      match lastWrite l k with
      | some v => some v
      | none => st.lookup k := by
  induction l generalizing st with
  | nil => rfl
  | cons kv rest ih =>
    obtain ⟨j, v⟩ := kv
    rw [applyWrites_cons, ih]
    cases hlast : lastWrite rest k with
    | some w => simp [lastWrite, hlast]
    | none =>
      by_cases hj : j = k
      · subst hj
        simp [lastWrite, hlast, lookup_write_self]
      · have hjk : (j == k) = false := by simp [hj]
        simp [lastWrite, hlast, hjk, lookup_write_other st k j v hj]

theorem lastWrite_append (l1 l2 : List (String × String)) (k : String) :
    lastWrite (l1 ++ l2) k =
      match lastWrite l2 k with
      | some v => some v
      | none => lastWrite l1 k := by
  induction l1 with
  | nil =>
    rw [List.nil_append]
    cases h : lastWrite l2 k <;> simp [lastWrite]
  | cons kv rest ih =>
    cases h2 : lastWrite l2 k with
    | none =>
      cases hr : lastWrite rest k with
      | none => simp [lastWrite, List.cons_append, ih, h2, hr]
      | some w => simp [lastWrite, List.cons_append, ih, h2, hr]
    | some v =>
      cases hr : lastWrite rest k with
      | none => simp [lastWrite, List.cons_append, ih, h2, hr]
      | some w => simp [lastWrite, List.cons_append, ih, h2, hr]

theorem lastWrite_single_guard (b : Bool) (k v j : String) (h : (k == j) = false) :
    lastWrite (if b then [(k, v)] else []) j = none := by
  cases b <;> simp [lastWrite, h]

/-! ### Helper lemmas about the service operations -/

theorem isConfigured_spec (s : ServiceState) :
    isConfigured s = true ↔
      ∃ c, s.config = some c ∧ c.accessToken ≠ "" ∧ c.pageId ≠ "" := by
  cases hc : s.config with
  | none => simp [isConfigured, hc]
  | some c => simp [isConfigured, hc]

theorem loadConfig_no_token (s : ServiceState) (h : s.storage.lookup NOTION_TOKEN_KEY = none) :
    loadConfig s = (s, none) := by
  by_cases h1 : NOTION_TOKEN_KEY ∈ s.storage.failRead
  · simp [loadConfig, loadConfigRead, getItem, h1, Bind.bind, Except.bind]
  · by_cases h2 : NOTION_PAGE_ID_KEY ∈ s.storage.failRead
    · simp [loadConfig, loadConfigRead, getItem, h1, h2, Bind.bind, Except.bind]
    · by_cases h3 : NOTION_PAGE_NAME_KEY ∈ s.storage.failRead
      · simp [loadConfig, loadConfigRead, getItem, h1, h2, h3, Bind.bind, Except.bind]
      · by_cases h4 : NOTION_USER_ID_KEY ∈ s.storage.failRead
        · simp [loadConfig, loadConfigRead, getItem, h1, h2, h3, h4, Bind.bind, Except.bind]
        · by_cases h5 : NOTION_WORKSPACE_ID_KEY ∈ s.storage.failRead
          · simp [loadConfig, loadConfigRead, getItem, h1, h2, h3, h4, h5, Bind.bind, Except.bind]
          · simp [loadConfig, loadConfigRead, getItem, h1, h2, h3, h4, h5, h, strTruthy,
              Bind.bind, Except.bind, Pure.pure, Except.pure]

theorem syncNote_resolves_true (s : ServiceState) (n : NoteInput) (u a : Except String Unit) :
    (syncNote s n u a).2.2 = .ok true := by
  unfold syncNote
  by_cases hp : strTruthy (s.config.map (fun c => c.pageId))
  · rcases hini : initializeNotion s with ⟨s1, r⟩
    cases r with
    | error e => simp [hp, hini]
    | ok _ =>
      by_cases hn : s1.notionInit
      · simp only [hp, if_true, hini]
        cases u <;> cases a <;> simp [hn]
      · simp [hp, hini, hn]
  · simp [hp]

theorem syncNote_configured_state (s : ServiceState) (n : NoteInput) (u a : Except String Unit)
    (h : isConfigured s = true) :
    (syncNote s n u a).1 = { s with notionInit := true }
    ∧ pageUpdateCount (syncNote s n u a).2.1 = 1 := by
  obtain ⟨c, hc, ht, hp⟩ := (isConfigured_spec s).mp h
  have hptr : strTruthy (s.config.map (fun c => c.pageId)) = true := by
    simp [hc, strTruthy, hp]
  have httr : strTruthy (s.config.map (fun c => c.accessToken)) = true := by
    simp [hc, strTruthy, ht]
  unfold syncNote
  by_cases hn : s.notionInit
  · have hini : initializeNotion s = (s, .ok ()) := by simp [initializeNotion, httr, hn]
    have hs : ({ s with notionInit := true } : ServiceState) = s := by
      cases s
      simp_all
    cases u <;> cases a <;> simp [hptr, hini, hn, hs, pageUpdateCount]
  · have hini : initializeNotion s = ({ s with notionInit := true }, .ok ()) := by
      simp [initializeNotion, httr, hn]
    cases u <;> cases a <;> simp [hptr, hini, pageUpdateCount]

theorem pageUpdateCount_append (a b : List RemoteOp) :
    pageUpdateCount (a ++ b) = pageUpdateCount a + pageUpdateCount b := by
  simp [pageUpdateCount, List.filter_append]

theorem length_filter_unsynced (l : List Note) :
    (l.filter (fun n => !n.isSyncedB)).length + (l.filter (fun n => n.isSyncedB)).length
      = l.length := by
  induction l with
  | nil => rfl
  | cons n rest ih =>
    cases h : n.isSyncedB <;> simp [List.filter_cons, h] <;> omega

/-- The synced status written by the loop's success branch. -/
def syncedStatus (now : Nat) : SyncStatusRec :=
  { isSynced := true, lastSyncAttempt := some now, error := none }

theorem syncLoop_spec (upd app : Nat → Except String Unit) (now : Nat) :
    ∀ (pending : List Note) (s : ServiceState) (idx : Nat), isConfigured s = true →
      isConfigured (syncLoop s pending idx upd app now).1 = true
      ∧ (syncLoop s pending idx upd app now).2.1
          = pending.map (fun n => { n with notionSyncStatus := some (syncedStatus now) })
      ∧ pageUpdateCount (syncLoop s pending idx upd app now).2.2.1 = pending.length
      ∧ (syncLoop s pending idx upd app now).2.2.2.1 = pending.length
      ∧ (syncLoop s pending idx upd app now).2.2.2.2 = 0 := by
  intro pending
  induction pending with
  | nil =>
    intro s idx h
    exact ⟨h, rfl, rfl, rfl, rfl⟩
  | cons n rest ih =>
    intro s idx h
    have hsn1 := syncNote_configured_state s n.toInput (upd idx) (app idx) h
    have hsn2 := syncNote_resolves_true s n.toInput (upd idx) (app idx)
    rcases hx : syncNote s n.toInput (upd idx) (app idx) with ⟨s1, ops, res⟩
    rw [hx] at hsn1 hsn2
    simp only at hsn1 hsn2
    obtain ⟨hs1, hops⟩ := hsn1
    subst hsn2
    have hconf1 : isConfigured s1 = true := by
      rw [hs1]
      exact h
    have ihr := ih s1 (idx + 1) hconf1
    rcases hy : syncLoop s1 rest (idx + 1) upd app now with ⟨s2, rest1, ops2, sc, ec⟩
    rw [hy] at ihr
    simp only at ihr
    obtain ⟨ih1, ih2, ih3, ih4, ih5⟩ := ihr
    simp only [syncLoop, hx, hy]
    refine ⟨ih1, ?_, ?_, ?_, ?_⟩
    · simp [ih2, syncedStatus]
    · simp [pageUpdateCount_append, hops, ih3, Nat.add_comm]
    · simp [ih4]
    · exact ih5

/-! ### Claim theorems -/

/-- C1: for every state of the credential store, `isConfigured()` returns true
iff the cached credential record is non-null and both its `accessToken` and
its selected page id (`selectedTargetId`) are non-empty strings. -/
theorem isConfigured_iff_record_nonempty (s : ServiceState) :
    isConfigured s = true ↔
      ∃ c, s.config = some c ∧ c.accessToken ≠ "" ∧ c.pageId ≠ "" :=
  isConfigured_spec s

/-- C2: calling `syncNote` while `isConfigured()` is false attempts no remote
call and leaves the service state unchanged — but, contrary to the claim, it
does not fail with an error: the internally thrown error is swallowed by the
catch-all and the call resolves with `true` (success). -/
theorem syncNote_unconfigured_swallows (s : ServiceState) (note : NoteInput)
    (u a : Except String Unit) (h : isConfigured s = false) :
    syncNote s note u a = (s, [], .ok true) := by
  cases hc : s.config with
  | none => simp [syncNote, hc, strTruthy]
  | some c =>
    simp only [isConfigured, hc, Bool.and_eq_false_iff] at h
    by_cases hp : c.pageId = ""
    · simp [syncNote, hc, strTruthy, hp]
    · have ht : c.accessToken = "" := by
        rcases h with h | h
        · simpa using h
        · exact absurd (by simpa using h) hp
      simp [syncNote, hc, strTruthy, hp, ht, initializeNotion]

/-- Witness for C2 at a concrete unconfigured state. -/
theorem syncNote_unconfigured_swallows_witness :
    isConfigured emptyState = false ∧
      syncNote emptyState { title := "t", content := "c", createdAtLocale := "1/1/2024" }
          (.ok ()) (.ok ()) = (emptyState, [], .ok true) :=
  ⟨by decide,
   syncNote_unconfigured_swallows emptyState
     { title := "t", content := "c", createdAtLocale := "1/1/2024" } (.ok ()) (.ok ()) (by decide)⟩

/-- C3: evaluating `authenticate` on a redirect URL carrying
`error=access_denied`, and on a token exchange answering HTTP 401: in both
cases the thrown error is caught by the catch-all, which SAVES a fabricated
test credential record to the credential store and resolves `true` — so no
error reaches the caller and a subsequent `load()` no longer returns the
prior value (`null`), contradicting the claim. -/
theorem authenticate_failure_fabricates :
    (loadConfig emptyState).2 = none
    ∧ (authenticate emptyState (.success none (some "access_denied")) tok401 7).2 = .ok true
    ∧ (loadConfig (authenticate emptyState (.success none (some "access_denied")) tok401 7).1).2
        = some { accessToken := "secret_test_7", pageId := "test-page-id",
                 pageName := "Test Page", userId := some "user_test_7",
                 workspaceId := some "workspace_test_7", workspaceName := none }
    ∧ (authenticate emptyState (.success (some "authcode") none) tok401 7).2 = .ok true
    ∧ (loadConfig (authenticate emptyState (.success (some "authcode") none) tok401 7).1).2
        = some { accessToken := "secret_test_7", pageId := "test-page-id",
                 pageName := "Test Page", userId := some "user_test_7",
                 workspaceId := some "workspace_test_7", workspaceName := none } := by
  decide

/-- C4 counterexample: a full record saved on empty storage does not load back
equal to itself — the loaded record's `workspaceName` is `none` because
`saveConfig` has no storage key for it, although the save itself succeeded. -/
theorem save_load_drops_workspace_name :
    (saveConfig emptyState rtCfg).2 = .ok ()
    ∧ (loadConfig (saveConfig emptyState rtCfg).1).2 ≠ some rtCfg
    ∧ ((loadConfig (saveConfig emptyState rtCfg).1).2.map (fun c => c.workspaceName))
        = some none
    ∧ rtCfg.workspaceName = some "Acme Workspace" := by
  decide

/-- C4 amended: for a record with a non-empty access token and with user id
and workspace id both present and non-empty, saved on storage with no
read/write failures, `save` then `load` round-trips the five persisted fields
(`accessToken`, `pageId`, `pageName`, `userId`, `workspaceId`), while
`workspaceName` is not persisted and always loads as `none`. -/
theorem save_load_roundtrip_on_persisted_fields (s : ServiceState) (c : NotionConfig)
    (u w : String)
    (hw : s.storage.failWrite = []) (hr : s.storage.failRead = [])
    (ht : c.accessToken ≠ "") (hu : c.userId = some u) (hu2 : u ≠ "")
    (hwid : c.workspaceId = some w) (hw2 : w ≠ "") :
    (loadConfig (saveConfig s c).1).2
      = some { accessToken := c.accessToken, pageId := c.pageId, pageName := c.pageName,
               userId := c.userId, workspaceId := c.workspaceId, workspaceName := none } := by
  have hwrites : saveWrites c =
      [(NOTION_TOKEN_KEY, c.accessToken),
       (NOTION_PAGE_ID_KEY, c.pageId),
       (NOTION_PAGE_NAME_KEY, c.pageName),
       (NOTION_USER_ID_KEY, u),
       (NOTION_WORKSPACE_ID_KEY, w)] := by
    simp [saveWrites, hu, hwid, strTruthy, hu2, hw2]
  have hsave : saveConfig s c
      = ({ s with storage := applyWrites s.storage (saveWrites c), config := some c }, .ok ()) := by
    simp [saveConfig, setItems_noFail _ s.storage hw]
  have l1 : (applyWrites s.storage (saveWrites c)).lookup NOTION_TOKEN_KEY
      = some c.accessToken := by
    rw [hwrites, lookup_applyWrites]
    simp [lastWrite, NOTION_TOKEN_KEY, NOTION_PAGE_ID_KEY, NOTION_PAGE_NAME_KEY,
      NOTION_USER_ID_KEY, NOTION_WORKSPACE_ID_KEY]
  have l2 : (applyWrites s.storage (saveWrites c)).lookup NOTION_PAGE_ID_KEY = some c.pageId := by
    rw [hwrites, lookup_applyWrites]
    simp [lastWrite, NOTION_TOKEN_KEY, NOTION_PAGE_ID_KEY, NOTION_PAGE_NAME_KEY,
      NOTION_USER_ID_KEY, NOTION_WORKSPACE_ID_KEY]
  have l3 : (applyWrites s.storage (saveWrites c)).lookup NOTION_PAGE_NAME_KEY
      = some c.pageName := by
    rw [hwrites, lookup_applyWrites]
    simp [lastWrite, NOTION_TOKEN_KEY, NOTION_PAGE_ID_KEY, NOTION_PAGE_NAME_KEY,
      NOTION_USER_ID_KEY, NOTION_WORKSPACE_ID_KEY]
  have l4 : (applyWrites s.storage (saveWrites c)).lookup NOTION_USER_ID_KEY = some u := by
    rw [hwrites, lookup_applyWrites]
    simp [lastWrite, NOTION_TOKEN_KEY, NOTION_PAGE_ID_KEY, NOTION_PAGE_NAME_KEY,
      NOTION_USER_ID_KEY, NOTION_WORKSPACE_ID_KEY]
  have l5 : (applyWrites s.storage (saveWrites c)).lookup NOTION_WORKSPACE_ID_KEY = some w := by
    rw [hwrites, lookup_applyWrites]
    simp [lastWrite, NOTION_TOKEN_KEY, NOTION_PAGE_ID_KEY, NOTION_PAGE_NAME_KEY,
      NOTION_USER_ID_KEY, NOTION_WORKSPACE_ID_KEY]
  have hfr : (applyWrites s.storage (saveWrites c)).failRead = [] := by
    rw [applyWrites_failRead, hr]
  rw [hsave]
  simp [loadConfig, loadConfigRead, getItem, hfr, l1, l2, l3, l4, l5,
    strTruthy, ht, orUndefined, hu2, hw2, hu, hwid, Bind.bind, Except.bind,
    Pure.pure, Except.pure]

/-- Witness for the amended C4 at a concrete record and empty storage. -/
theorem save_load_roundtrip_on_persisted_fields_witness :
    emptyState.storage.failWrite = [] ∧ emptyState.storage.failRead = []
    ∧ rtCfg.accessToken ≠ "" ∧ rtCfg.userId = some "u_1" ∧ "u_1" ≠ ""
    ∧ rtCfg.workspaceId = some "w_1" ∧ "w_1" ≠ ""
    ∧ (loadConfig (saveConfig emptyState rtCfg).1).2
        = some { accessToken := rtCfg.accessToken, pageId := rtCfg.pageId,
                 pageName := rtCfg.pageName, userId := rtCfg.userId,
                 workspaceId := rtCfg.workspaceId, workspaceName := none } :=
  ⟨rfl, rfl, by decide, rfl, by decide, rfl, by decide,
   save_load_roundtrip_on_persisted_fields emptyState rtCfg "u_1" "w_1"
     rfl rfl (by decide) rfl (by decide) rfl (by decide)⟩

/-- C5 counterexample: after a successful `disconnect` from a state whose
storage holds all five entries, the user-id and workspace-id entries are still
present — `disconnect` does not remove every persisted credential field. -/
theorem disconnect_retains_identity_entries :
    (disconnect (saveConfig emptyState rtCfg).1).2 = .ok ()
    ∧ (disconnect (saveConfig emptyState rtCfg).1).1.storage.lookup NOTION_USER_ID_KEY
        = some "u_1"
    ∧ (disconnect (saveConfig emptyState rtCfg).1).1.storage.lookup NOTION_WORKSPACE_ID_KEY
        = some "w_1" := by
  decide

/-- C5 amended: when the three removals succeed, `disconnect` deletes the
token, page-id and page-name entries and clears the in-memory cache (and
client); user-id and workspace-id entries are left untouched in storage; and
every subsequent `load()` returns `null` (because the token entry is gone). -/
theorem disconnect_clears_core_and_load_null (s : ServiceState)
    (h1 : NOTION_TOKEN_KEY ∉ s.storage.failWrite)
    (h2 : NOTION_PAGE_ID_KEY ∉ s.storage.failWrite)
    (h3 : NOTION_PAGE_NAME_KEY ∉ s.storage.failWrite) :
    (disconnect s).2 = .ok ()
    ∧ (disconnect s).1.config = none
    ∧ (disconnect s).1.notionInit = false
    ∧ (disconnect s).1.storage.lookup NOTION_TOKEN_KEY = none
    ∧ (disconnect s).1.storage.lookup NOTION_PAGE_ID_KEY = none
    ∧ (disconnect s).1.storage.lookup NOTION_PAGE_NAME_KEY = none
    ∧ (disconnect s).1.storage.lookup NOTION_USER_ID_KEY = s.storage.lookup NOTION_USER_ID_KEY
    ∧ (disconnect s).1.storage.lookup NOTION_WORKSPACE_ID_KEY
        = s.storage.lookup NOTION_WORKSPACE_ID_KEY
    ∧ (loadConfig (disconnect s).1).2 = none := by
  have hd : disconnect s =
      ({ storage :=
           { data := ((s.storage.data.filter (fun p => p.1 != NOTION_TOKEN_KEY)).filter
                 (fun p => p.1 != NOTION_PAGE_ID_KEY)).filter
                 (fun p => p.1 != NOTION_PAGE_NAME_KEY),
             failRead := s.storage.failRead,
             failWrite := s.storage.failWrite },
         config := none, notionInit := false }, .ok ()) := by
    simp [disconnect, removeItem, h1, h2, h3]
  have lt : (disconnect s).1.storage.lookup NOTION_TOKEN_KEY = none := by
    rw [hd]
    simp only [Storage.lookup]
    rw [find?_filter_ne _ _ _ (by decide), find?_filter_ne _ _ _ (by decide), find?_self_filter]
    rfl
  refine ⟨by rw [hd], by rw [hd], by rw [hd], lt, ?_, ?_, ?_, ?_, ?_⟩
  · rw [hd]
    simp only [Storage.lookup]
    rw [find?_filter_ne _ _ _ (by decide), find?_self_filter]
    rfl
  · rw [hd]
    simp only [Storage.lookup]
    rw [find?_self_filter]
    rfl
  · rw [hd]
    simp only [Storage.lookup]
    rw [find?_filter_ne _ _ _ (by decide), find?_filter_ne _ _ _ (by decide),
      find?_filter_ne _ _ _ (by decide)]
  · rw [hd]
    simp only [Storage.lookup]
    rw [find?_filter_ne _ _ _ (by decide), find?_filter_ne _ _ _ (by decide),
      find?_filter_ne _ _ _ (by decide)]
  · rw [loadConfig_no_token _ lt]

theorem lastWrite_save_token (c : NotionConfig) :
    lastWrite (saveWrites c) NOTION_TOKEN_KEY = some c.accessToken := by
  cases hu : strTruthy c.userId <;> cases hw : strTruthy c.workspaceId <;>
    simp [saveWrites, hu, hw, lastWrite, NOTION_TOKEN_KEY, NOTION_PAGE_ID_KEY,
      NOTION_PAGE_NAME_KEY, NOTION_USER_ID_KEY, NOTION_WORKSPACE_ID_KEY]

theorem lastWrite_save_pageId (c : NotionConfig) :
    lastWrite (saveWrites c) NOTION_PAGE_ID_KEY = some c.pageId := by
  cases hu : strTruthy c.userId <;> cases hw : strTruthy c.workspaceId <;>
    simp [saveWrites, hu, hw, lastWrite, NOTION_TOKEN_KEY, NOTION_PAGE_ID_KEY,
      NOTION_PAGE_NAME_KEY, NOTION_USER_ID_KEY, NOTION_WORKSPACE_ID_KEY]

/-- State obtained by saving the full record on a fresh state (all five
storage entries populated). -/
def savedState : ServiceState := (saveConfig emptyState rtCfg).1

/-- Witness for the amended C5 at the fully populated state. -/
theorem disconnect_clears_core_and_load_null_witness :
    NOTION_TOKEN_KEY ∉ savedState.storage.failWrite
    ∧ NOTION_PAGE_ID_KEY ∉ savedState.storage.failWrite
    ∧ NOTION_PAGE_NAME_KEY ∉ savedState.storage.failWrite
    ∧ (disconnect savedState).2 = .ok ()
    ∧ (loadConfig (disconnect savedState).1).2 = none :=
  ⟨by decide, by decide, by decide,
   (disconnect_clears_core_and_load_null savedState (by decide) (by decide) (by decide)).1,
   (disconnect_clears_core_and_load_null savedState
       (by decide) (by decide) (by decide)).2.2.2.2.2.2.2.2⟩

/-- C6: on HTTP success of the token exchange (no error parameter, non-empty
code, storage writes succeeding), `authenticate` persists via the credential
store a record containing the returned access token and the identity metadata
(owner user id, workspace id, workspace name — defaulted when the response has
none), with the selected page id left as the empty string; the token and the
empty page id are written to storage. -/
theorem authenticate_success_persists_record (s : ServiceState) (code : String)
    (resp : TokenResponse) (now : Nat)
    (hw : s.storage.failWrite = []) (hc : code ≠ "") (hok : resp.ok = true) :
    (authenticate s (.success (some code) none) resp now).2 = .ok true
    ∧ (∃ cfgr, (authenticate s (.success (some code) none) resp now).1.config = some cfgr
        ∧ cfgr.accessToken = resp.accessToken
        ∧ cfgr.pageId = ""
        ∧ cfgr.pageName = ""
        ∧ cfgr.userId = resp.ownerUserId
        ∧ cfgr.workspaceId = resp.workspaceId
        ∧ cfgr.workspaceName = some (jsOrElse resp.workspaceName "User Workspace"))
    ∧ (authenticate s (.success (some code) none) resp now).1.storage.lookup NOTION_TOKEN_KEY
        = some resp.accessToken
    ∧ (authenticate s (.success (some code) none) resp now).1.storage.lookup NOTION_PAGE_ID_KEY
        = some "" := by
  have hauth : authenticate s (.success (some code) none) resp now
      = (ServiceState.mk (applyWrites s.storage (saveWrites (tokenSuccessConfig resp)))
          (some (tokenSuccessConfig resp)) s.notionInit, .ok true) := by
    simp [authenticate, strTruthy, hc, hok, saveConfig, setItems_noFail _ _ hw]
  rw [hauth]
  refine ⟨rfl, ⟨tokenSuccessConfig resp, rfl, rfl, rfl, rfl, rfl, rfl, rfl⟩, ?_, ?_⟩
  · rw [lookup_applyWrites]
    simp [lastWrite_save_token, tokenSuccessConfig]
  · rw [lookup_applyWrites]
    simp [lastWrite_save_pageId, tokenSuccessConfig]

/-- A successful token-endpoint response fixture. -/
def tokOk : TokenResponse :=
  { ok := true, accessToken := "ntn_tok", workspaceId := some "ws1",
    workspaceName := some "My WS", ownerUserId := some "user9", errorText := "" }

/-- Witness for C6 at a concrete successful exchange. -/
theorem authenticate_success_persists_record_witness :
    emptyState.storage.failWrite = [] ∧ ("authcode" : String) ≠ "" ∧ tokOk.ok = true
    ∧ (authenticate emptyState (.success (some "authcode") none) tokOk 3).2 = .ok true
    ∧ (authenticate emptyState
        (.success (some "authcode") none) tokOk 3).1.storage.lookup NOTION_TOKEN_KEY
        = some tokOk.accessToken :=
  ⟨rfl, by decide, rfl,
   (authenticate_success_persists_record emptyState "authcode" tokOk 3 rfl (by decide) rfl).1,
   (authenticate_success_persists_record emptyState "authcode" tokOk 3 rfl (by decide) rfl).2.2.1⟩

/-- C7: for every list of notes, when the service is configured, `handleSyncAll`
attempts exactly N − M per-note remote syncs (each opening with one
`pages.update` call), where N is the number of notes and M the number of notes
whose `syncStatus.isSynced` is true; the whole unsynced batch is processed
(never stopping early, for arbitrary remote outcomes), and the aggregate
success/failure counts are reported. -/
theorem syncAll_attempts_unsynced_count (s : ServiceState) (notes : List Note)
    (upd app : Nat → Except String Unit) (now : Nat) (h : isConfigured s = true) :
    pageUpdateCount (handleSyncAll s notes upd app now).trace
        = notes.length - (notes.filter (fun n => n.isSyncedB)).length
    ∧ (handleSyncAll s notes upd app now).processed.length
        = notes.length - (notes.filter (fun n => n.isSyncedB)).length
    ∧ (handleSyncAll s notes upd app now).successCount
        = notes.length - (notes.filter (fun n => n.isSyncedB)).length
    ∧ (handleSyncAll s notes upd app now).errorCount = 0 := by
  have hNM : notes.length - (notes.filter (fun n => n.isSyncedB)).length
      = (notes.filter (fun n => !n.isSyncedB)).length := by
    have := length_filter_unsynced notes
    omega
  rw [hNM]
  by_cases hz : (notes.filter (fun n => !n.isSyncedB)).length = 0
  · simp [handleSyncAll, hz, pageUpdateCount]
  · obtain ⟨c, hc, ht, hp⟩ := (isConfigured_spec s).mp h
    have hens : ensurePageExists s = .ok () := by
      simp [ensurePageExists, hc, strTruthy, hp]
    have hloop := syncLoop_spec upd app now (notes.filter (fun n => !n.isSyncedB)) s 0 h
    rcases hy : syncLoop s (notes.filter (fun n => !n.isSyncedB)) 0 upd app now
      with ⟨s2, processed, ops, sc, ec⟩
    rw [hy] at hloop
    simp only at hloop
    obtain ⟨-, hproc, hops, hsc, hec⟩ := hloop
    simp [handleSyncAll, hz, hens, hy, hproc, hops, hsc, hec]

/-- A note already marked synced. -/
def noteSynced : Note :=
  { id := "1", title := "a", content := "b", createdAtLocale := "d",
    notionSyncStatus := some { isSynced := true, lastSyncAttempt := none, error := none } }

/-- A note never synced. -/
def noteNew : Note :=
  { id := "2", title := "x", content := "y", createdAtLocale := "d",
    notionSyncStatus := none }

/-- Witness for C7: two notes, one pre-synced, so exactly one attempt. -/
theorem syncAll_attempts_unsynced_count_witness :
    isConfigured configuredState = true
    ∧ pageUpdateCount (handleSyncAll configuredState [noteSynced, noteNew]
        (fun _ => .ok ()) (fun _ => .ok ()) 42).trace
      = [noteSynced, noteNew].length
        - ([noteSynced, noteNew].filter (fun n => n.isSyncedB)).length
    ∧ (handleSyncAll configuredState [noteSynced, noteNew]
        (fun _ => .ok ()) (fun _ => .ok ()) 42).errorCount = 0 :=
  ⟨by decide,
   (syncAll_attempts_unsynced_count configuredState [noteSynced, noteNew]
     (fun _ => .ok ()) (fun _ => .ok ()) 42 (by decide)).1,
   (syncAll_attempts_unsynced_count configuredState [noteSynced, noteNew]
     (fun _ => .ok ()) (fun _ => .ok ()) 42 (by decide)).2.2.2⟩

/-- A state whose storage rejects writes of the token key. -/
def badWriteState : ServiceState :=
  { storage := { data := [], failRead := [], failWrite := [NOTION_TOKEN_KEY] },
    config := none, notionInit := false }

/-- A state whose storage holds a token but rejects reads of the token key. -/
def badReadState : ServiceState :=
  { storage := { data := [(NOTION_TOKEN_KEY, "tok_live")],
                 failRead := [NOTION_TOKEN_KEY], failWrite := [] },
    config := none, notionInit := false }

/-- C8 counterexample: with credentials in storage but a failing read,
`loadConfig` returns the plain `null` of an unconfigured store — the read
failure is swallowed, not propagated as the claim requires. -/
theorem loadConfig_swallows_read_failure :
    badReadState.storage.lookup NOTION_TOKEN_KEY = some "tok_live"
    ∧ NOTION_TOKEN_KEY ∈ badReadState.storage.failRead
    ∧ loadConfig badReadState = (badReadState, none) := by
  decide

/-- C8 amended: `saveConfig` propagates an underlying storage write failure as
an error wrapped with context, but `loadConfig` catches a storage read failure
and returns `null` — a normal value — instead of raising. -/
theorem save_raises_load_swallows (s t : ServiceState) (c : NotionConfig)
    (hw : NOTION_TOKEN_KEY ∈ s.storage.failWrite)
    (hr : NOTION_TOKEN_KEY ∈ t.storage.failRead) :
    (saveConfig s c).2
        = .error ("Failed to save user Notion configuration: " ++ "storage write failure")
    ∧ loadConfig t = (t, none) := by
  constructor
  · simp [saveConfig, saveWrites, setItems, setItem, hw]
  · simp [loadConfig, loadConfigRead, getItem, hr, Bind.bind, Except.bind]

/-- Witness for the amended C8 at concrete failing storages. -/
theorem save_raises_load_swallows_witness :
    NOTION_TOKEN_KEY ∈ badWriteState.storage.failWrite
    ∧ NOTION_TOKEN_KEY ∈ badReadState.storage.failRead
    ∧ (saveConfig badWriteState rtCfg).2
        = .error ("Failed to save user Notion configuration: " ++ "storage write failure")
    ∧ loadConfig badReadState = (badReadState, none) :=
  ⟨by decide, by decide,
   (save_raises_load_swallows badWriteState badReadState rtCfg (by decide) (by decide)).1,
   (save_raises_load_swallows badWriteState badReadState rtCfg (by decide) (by decide)).2⟩

/-- C9: `getUserPages` never propagates a remote failure: its result is always
a successful list; on any failure (client initialization or search) it is the
fixed fallback/sample list; on a successful search with a usable token, every
returned item's title defaults to `'Untitled'` when the remote page has no
(or an empty) title. -/
theorem getUserPages_fallback_and_default (s : ServiceState)
    (outcome : Except String (List RemotePage)) :
    (∃ l, (getUserPages s outcome).2 = .ok l)
    ∧ (∀ e, outcome = .error e → (getUserPages s outcome).2 = .ok mockPages)
    ∧ (∀ pages, outcome = .ok pages →
        strTruthy (s.config.map (fun c => c.accessToken)) = true →
        (getUserPages s outcome).2
          = .ok (pages.map (fun p =>
              { id := p.id, title := jsOrElse p.titleText "Untitled", url := p.url }))) := by
  by_cases htok : strTruthy (s.config.map (fun c => c.accessToken)) = true
  · have hini : ∃ s1, initializeNotion s = (s1, .ok ()) ∧ s1.notionInit = true := by
      by_cases hni : s.notionInit
      · exact ⟨s, by simp [initializeNotion, htok, hni], hni⟩
      · exact ⟨{ s with notionInit := true }, by simp [initializeNotion, htok, hni], rfl⟩
    obtain ⟨s1, hini1, hni1⟩ := hini
    cases outcome with
    | error e =>
      refine ⟨⟨mockPages, ?_⟩, fun e2 he2 => ?_, fun pages hp => by cases hp⟩
      · simp [getUserPages, hini1, hni1]
      · simp [getUserPages, hini1, hni1]
    | ok pages =>
      have hmap : (getUserPages s (Except.ok pages)).2
          = .ok (pages.map (fun p =>
              { id := p.id, title := jsOrElse p.titleText "Untitled", url := p.url })) := by
        simp [getUserPages, hini1, hni1]
      refine ⟨⟨_, hmap⟩, fun e2 he2 => ?_, fun pages2 hp htok2 => ?_⟩
      · cases he2
      · injection hp with hpp
        subst hpp
        exact hmap
  · have htokf : strTruthy (s.config.map (fun c => c.accessToken)) = false := by
      simpa using htok
    have hini1 : initializeNotion s
        = (s, .error "Notion not configured. Please authenticate first.") := by
      simp [initializeNotion, htokf]
    refine ⟨⟨mockPages, ?_⟩, fun e2 he2 => ?_, fun pages hp htok2 => absurd htok2 htok⟩
    · simp [getUserPages, hini1]
    · simp [getUserPages, hini1]

/-- Witness for C9: a failing search yields the fallback list, and a
successful search with an untitled page yields the placeholder title. -/
theorem getUserPages_fallback_and_default_witness :
    (getUserPages emptyState (.error "network down")).2 = .ok mockPages
    ∧ (getUserPages configuredState (.ok [{ id := "p1", titleText := none, url := "u" }])).2
        = .ok [{ id := "p1", title := "Untitled", url := "u" }] :=
  ⟨(getUserPages_fallback_and_default emptyState (.error "network down")).2.1 "network down" rfl,
   by
     have h := (getUserPages_fallback_and_default configuredState
         (.ok [{ id := "p1", titleText := none, url := "u" }])).2.2
       [{ id := "p1", titleText := none, url := "u" }] rfl (by decide)
     rw [h]
     rfl⟩

/-- C10: `syncNote` never raises to its caller — for every state and every
remote outcome its promise resolves with `true` — and consequently, when the
orchestrator syncs an unsynced note over a failing remote append, it records
`isSynced = true` (with zero reported errors) for a note whose content was
never appended remotely. -/
theorem syncNote_always_resolves_true (s : ServiceState) (n : NoteInput)
    (u a : Except String Unit) (t : ServiceState) (m : Note) (now : Nat)
    (ht : isConfigured t = true) (hm : m.isSyncedB = false) :
    (syncNote s n u a).2.2 = .ok true
    ∧ (handleSyncAll t [m] (fun _ => .ok ()) (fun _ => .error "remote append rejected")
        now).processed
        = [{ m with notionSyncStatus := some (syncedStatus now) }]
    ∧ (handleSyncAll t [m] (fun _ => .ok ()) (fun _ => .error "remote append rejected")
        now).errorCount = 0 := by
  have hf : [m].filter (fun x => !x.isSyncedB) = [m] := by
    simp [List.filter_cons, hm]
  obtain ⟨c, hc, htk, hp⟩ := (isConfigured_spec t).mp ht
  have hens : ensurePageExists t = .ok () := by
    simp [ensurePageExists, hc, strTruthy, hp]
  have hloop := syncLoop_spec (fun _ => .ok ()) (fun _ => .error "remote append rejected")
    now [m] t 0 ht
  rcases hy : syncLoop t [m] 0 (fun _ => .ok ())
      (fun _ => .error "remote append rejected") now with ⟨s2, processed, ops, sc, ec⟩
  rw [hy] at hloop
  simp only at hloop
  obtain ⟨-, hproc, -, -, hec⟩ := hloop
  refine ⟨syncNote_resolves_true s n u a, ?_, ?_⟩
  · simp [handleSyncAll, hf, hens, hy, hproc]
  · simp [handleSyncAll, hf, hens, hy, hec]

/-- Witness for C10 at concrete inputs with a rejected remote append. -/
theorem syncNote_always_resolves_true_witness :
    isConfigured configuredState = true ∧ noteNew.isSyncedB = false
    ∧ (syncNote emptyState { title := "t", content := "c", createdAtLocale := "d" }
        (.ok ()) (.error "net down")).2.2 = .ok true
    ∧ (handleSyncAll configuredState [noteNew] (fun _ => .ok ())
        (fun _ => .error "remote append rejected") 42).errorCount = 0 :=
  ⟨by decide, by decide,
   (syncNote_always_resolves_true emptyState
     { title := "t", content := "c", createdAtLocale := "d" } (.ok ()) (.error "net down")
     configuredState noteNew 42 (by decide) (by decide)).1,
   (syncNote_always_resolves_true emptyState
     { title := "t", content := "c", createdAtLocale := "d" } (.ok ()) (.error "net down")
     configuredState noteNew 42 (by decide) (by decide)).2.2⟩
